import Mathlib

/-!
Shallow embedding of the scoped-state and plot-builder surface of the
`dear-imgui` Rust binding layer, covering:

* `src/dear-imgui/src/widget/misc.rs` — the `DisabledToken` scope token,
  `Ui::begin_disabled_with_cond`, and the `ButtonFlags` bitmask;
* `src/extensions/dear-implot/src/plots/scatter.rs` — `ScatterPlot`,
  `SimpleScatterPlot`, and the `PlotUi` façade methods;
* `src/extensions/dear-implot/src/plots/image.rs` — `ImagePlot`.

Rust `f64` values are embedded as `ℚ` (the code performs no rounding-
sensitive arithmetic beyond `start + i * scale`, which the embedding keeps
exact).  Native side effects are embedded as explicit traces: every
operation returns the list of native calls it issues, in program order.
-/

namespace DearImgui

/-- A native (`sys::…`) point record `ImPlotPoint { x, y }` of two `f64`. -/
structure ImPlotPoint where
  x : ℚ
  y : ℚ
  deriving DecidableEq, Repr

/-- A native `ImVec2 { x, y }` of two `f32`. -/
structure ImVec2 where
  x : ℚ
  y : ℚ
  deriving DecidableEq, Repr

/-- A native `ImVec4 { x, y, z, w }` of four `f32`. -/
structure ImVec4 where
  x : ℚ
  y : ℚ
  z : ℚ
  w : ℚ
  deriving DecidableEq, Repr

/-- The native texture-reference record `sys::ImTextureRef`: an auxiliary
pointer `_TexData` (embedded as `Option Nat`, `none` being the null pointer)
and the integer handle `_TexID` (embedded as `Nat`). -/
structure ImTextureRef where
  texData : Option Nat
  texID : Nat
  deriving DecidableEq, Repr

/-- One call into the native ABI, with its arguments.  Pointer-and-length
pairs for `f64` arrays are embedded as the lists they point at; the `count`
argument keeps the value of the Rust `as i32` cast. -/
inductive NativeCall where
  /-- `sys::igBeginDisabled(disabled)` -/
  | beginDisabled (disabled : Bool)
  /-- `sys::igEndDisabled()` -/
  | endDisabled
  /-- `sys::ImPlot_PlotScatter_double(label, xs, ys, count)` -/
  | plotScatter (label : String) (xs ys : List ℚ) (count : Int)
  /-- `sys::ImPlot_PlotImage(label, tex_ref, bounds_min, bounds_max, uv0, uv1, tint, flags)` -/
  | plotImage (label : String) (texRef : ImTextureRef)
      (boundsMin boundsMax : ImPlotPoint) (uv0 uv1 : ImVec2)
      (tint : ImVec4) (flags : Int)
  deriving DecidableEq, Repr

/-- The Rust `as i32` cast applied to a `usize` slice length: reduce modulo
`2^32` and reinterpret the high bit as a sign. -/
def toI32 (n : Nat) : Int :=
  if n % 2 ^ 32 < 2 ^ 31 then ((n % 2 ^ 32 : Nat) : Int)
  else ((n % 2 ^ 32 : Nat) : Int) - 2 ^ 32

/-- Modelled from the spec: `safe_cstring` is declared in
`dear-implot/src/plots/mod.rs`, which is not among the provided sources.
Section 8 of the spec fixes its observable behaviour — "reading until the
terminator yields exactly the bytes of `s`" — so the embedding passes the
label through unchanged. -/
def safe_cstring (s : String) : String := s

/-- Modelled from the spec: the `PlotError` enumeration is declared in
`dear-implot/src/plots/mod.rs`, which is not among the provided sources.
Section 7 of the spec fixes the closed taxonomy: `EmptyData`,
`MismatchedLengths`, `OutOfBoundsOffset`, `InvalidLabel`, `Unsupported`. -/
inductive PlotError where
  | emptyData
  | mismatchedLengths
  | outOfBoundsOffset
  | invalidLabel
  | unsupported
  deriving DecidableEq, Repr

/-- Modelled from the spec: `validate_data_lengths` is declared in
`dear-implot/src/plots/mod.rs`, which is not among the provided sources.
Sections 4.5 and 8 of the spec fix its behaviour: "Validation: X and Y
lengths equal", mismatched lengths produce `MismatchedLengths`, and the
empty/empty pair validates successfully.  It receives only the two data
slices. -/
def validate_data_lengths (x_data y_data : List ℚ) : Except PlotError Unit :=
  if x_data.length = y_data.length then Except.ok ()
  else Except.error PlotError.mismatchedLengths

-- ===========================================================================
-- Disabled scope (misc.rs)
-- ===========================================================================

/-- `DisabledToken<'ui>` from `widget/misc.rs`: a fieldless token tracking an
open disabled scope (the `_ui` back-reference carries no data). -/
structure DisabledToken where
  deriving DecidableEq, Repr

/-- `Drop for DisabledToken`: issues `sys::igEndDisabled()`. -/
def DisabledToken.drop (_t : DisabledToken) : List NativeCall :=
  [NativeCall.endDisabled]

/-- `DisabledToken::end(self)`: consumes the token; its body is empty and the
`Drop` impl runs, so it is exactly the drop trace. -/
def DisabledToken.end' (t : DisabledToken) : List NativeCall :=
  DisabledToken.drop t

/-- `Ui::begin_disabled_with_cond(disabled)`: issues
`sys::igBeginDisabled(disabled)` and returns a fresh token, unconditionally. -/
def Ui.begin_disabled_with_cond (disabled : Bool) :
    List NativeCall × DisabledToken :=
  ([NativeCall.beginDisabled disabled], DisabledToken.mk)

/-- `Ui::begin_disabled()`: issues `sys::igBeginDisabled(true)`. -/
def Ui.begin_disabled : List NativeCall × DisabledToken :=
  ([NativeCall.beginDisabled true], DisabledToken.mk)

/-- The full trace of a program path that opens a conditional disabled scope,
runs `body`, and lets the token go out of scope (or calls `end()`). -/
def disabledScope (disabled : Bool) (body : List NativeCall) :
    List NativeCall :=
  let r := Ui.begin_disabled_with_cond disabled
  r.1 ++ body ++ DisabledToken.drop r.2

/-- Number of native `BeginDisabled` calls in a trace. -/
def countBeginDisabled (l : List NativeCall) : Nat :=
  l.countP fun c => match c with
    | NativeCall.beginDisabled _ => true
    | _ => false

/-- Number of native `EndDisabled` calls in a trace. -/
def countEndDisabled (l : List NativeCall) : Nat :=
  l.countP fun c => match c with
    | NativeCall.endDisabled => true
    | _ => false

-- ===========================================================================
-- ButtonFlags (misc.rs, via the bitflags! macro)
-- ===========================================================================

/-- Modelled from the spec: the native constant
`sys::ImGuiButtonFlags_MouseButtonLeft` comes from generated bindings not
among the provided sources; the spec (§4.2) says named constants correspond
bit-for-bit to native flag values, the left mouse button being bit 0. -/
def ImGuiButtonFlags_MouseButtonLeft : Nat := 1

/-- Modelled from the spec: `sys::ImGuiButtonFlags_MouseButtonRight`, bit 1
of the native button-flag word. -/
def ImGuiButtonFlags_MouseButtonRight : Nat := 2

/-- Modelled from the spec: `sys::ImGuiButtonFlags_MouseButtonMiddle`, bit 2
of the native button-flag word. -/
def ImGuiButtonFlags_MouseButtonMiddle : Nat := 4

/-- `ButtonFlags` from `widget/misc.rs`: a transparent `i32` bitmask produced
by the `bitflags!` macro.  All declared constants are nonnegative, so the
bit pattern is embedded as a `Nat` below `2^31`. -/
structure ButtonFlags where
  bits : Nat
  deriving DecidableEq, Repr

/-- `ButtonFlags::NONE = 0`. -/
def ButtonFlags.NONE : ButtonFlags := ButtonFlags.mk 0

/-- `ButtonFlags::MOUSE_BUTTON_LEFT`. -/
def ButtonFlags.MOUSE_BUTTON_LEFT : ButtonFlags :=
  ButtonFlags.mk ImGuiButtonFlags_MouseButtonLeft

/-- `ButtonFlags::MOUSE_BUTTON_RIGHT`. -/
def ButtonFlags.MOUSE_BUTTON_RIGHT : ButtonFlags :=
  ButtonFlags.mk ImGuiButtonFlags_MouseButtonRight

/-- `ButtonFlags::MOUSE_BUTTON_MIDDLE`. -/
def ButtonFlags.MOUSE_BUTTON_MIDDLE : ButtonFlags :=
  ButtonFlags.mk ImGuiButtonFlags_MouseButtonMiddle

/-- `BitOr for ButtonFlags` (bitflags): `from_bits_retain(a.bits() | b.bits())`. -/
def ButtonFlags.union (a b : ButtonFlags) : ButtonFlags :=
  ButtonFlags.mk (a.bits ||| b.bits)

/-- `BitAnd for ButtonFlags` (bitflags): `from_bits_retain(a.bits() & b.bits())`. -/
def ButtonFlags.inter (a b : ButtonFlags) : ButtonFlags :=
  ButtonFlags.mk (a.bits &&& b.bits)

/-- `ButtonFlags::contains` (bitflags): `self.bits() & other.bits() == other.bits()`. -/
def ButtonFlags.contains (a b : ButtonFlags) : Bool :=
  a.bits &&& b.bits == b.bits

/-- `ButtonFlags::from_bits_retain` (bitflags): wraps the raw integer. -/
def ButtonFlags.from_bits_retain (bits : Nat) : ButtonFlags :=
  ButtonFlags.mk bits

-- ===========================================================================
-- ScatterPlot (scatter.rs)
-- ===========================================================================

/-- `ScatterPlot<'a>` from `plots/scatter.rs`: label, borrowed X and Y data,
`ImPlotScatterFlags` (an `i32`), offset, stride. -/
structure ScatterPlot where
  label : String
  x_data : List ℚ
  y_data : List ℚ
  flags : Int
  offset : Int
  stride : Int
  deriving DecidableEq, Repr

/-- `ScatterPlot::new(label, x_data, y_data)`: zero flags, zero offset,
stride `size_of::<f64>() = 8`. -/
def ScatterPlot.new (label : String) (x_data y_data : List ℚ) : ScatterPlot :=
  ScatterPlot.mk label x_data y_data 0 0 8

/-- `ScatterPlot::with_flags`. -/
def ScatterPlot.with_flags (p : ScatterPlot) (flags : Int) : ScatterPlot :=
  { p with flags := flags }

/-- `ScatterPlot::with_offset`. -/
def ScatterPlot.with_offset (p : ScatterPlot) (offset : Int) : ScatterPlot :=
  { p with offset := offset }

/-- `ScatterPlot::with_stride`. -/
def ScatterPlot.with_stride (p : ScatterPlot) (stride : Int) : ScatterPlot :=
  { p with stride := stride }

/-- `ScatterPlot::validate`: delegates to `validate_data_lengths(x_data, y_data)`. -/
def ScatterPlot.validate (p : ScatterPlot) : Except PlotError Unit :=
  validate_data_lengths p.x_data p.y_data

/-- `impl Plot for ScatterPlot — fn plot(&self)`: returns (issuing no call)
when validation fails, otherwise issues `ImPlot_PlotScatter_double(label,
x_ptr, y_ptr, x_data.len() as i32)`. -/
def ScatterPlot.plot (p : ScatterPlot) : List NativeCall :=
  match p.validate with
  | Except.error _ => []
  | Except.ok _ =>
    [NativeCall.plotScatter (safe_cstring p.label) p.x_data p.y_data
      (toI32 p.x_data.length)]

/-- `PlotUi::scatter_plot(label, x_data, y_data)`: builds the descriptor,
propagates the validation error with the `?` operator (issuing no call),
otherwise plots and returns `Ok(())`. -/
def PlotUi.scatter_plot (label : String) (x_data y_data : List ℚ) :
    List NativeCall × Except PlotError Unit :=
  let plot := ScatterPlot.new label x_data y_data
  match plot.validate with
  | Except.error e => ([], Except.error e)
  | Except.ok _ => (plot.plot, Except.ok ())

-- ===========================================================================
-- SimpleScatterPlot (scatter.rs)
-- ===========================================================================

/-- `SimpleScatterPlot<'a>` from `plots/scatter.rs`. -/
structure SimpleScatterPlot where
  label : String
  values : List ℚ
  x_scale : ℚ
  x_start : ℚ
  deriving DecidableEq, Repr

/-- `SimpleScatterPlot::new(label, values)`: scale 1.0, start 0.0. -/
def SimpleScatterPlot.new (label : String) (values : List ℚ) :
    SimpleScatterPlot :=
  SimpleScatterPlot.mk label values 1 0

/-- `SimpleScatterPlot::with_x_scale`. -/
def SimpleScatterPlot.with_x_scale (p : SimpleScatterPlot) (scale : ℚ) :
    SimpleScatterPlot :=
  { p with x_scale := scale }

/-- `SimpleScatterPlot::with_x_start`. -/
def SimpleScatterPlot.with_x_start (p : SimpleScatterPlot) (start : ℚ) :
    SimpleScatterPlot :=
  { p with x_start := start }

/-- The temporary X data materialized by `SimpleScatterPlot::plot`:
`(0..values.len()).map(|i| x_start + i as f64 * x_scale)`. -/
def SimpleScatterPlot.x_data (p : SimpleScatterPlot) : List ℚ :=
  (List.range p.values.length).map fun i : ℕ => p.x_start + (i : ℚ) * p.x_scale

/-- `impl Plot for SimpleScatterPlot — fn plot(&self)`: returns (issuing no
call) when `values` is empty, otherwise synthesizes the X data and issues
`ImPlot_PlotScatter_double(label, x_ptr, values_ptr, values.len() as i32)`. -/
def SimpleScatterPlot.plot (p : SimpleScatterPlot) : List NativeCall :=
  if p.values.isEmpty then []
  else
    [NativeCall.plotScatter (safe_cstring p.label) p.x_data p.values
      (toI32 p.values.length)]

/-- `PlotUi::simple_scatter_plot(label, values)`: returns
`Err(PlotError::EmptyData)` (issuing no call) when `values` is empty,
otherwise builds the descriptor, plots, and returns `Ok(())`. -/
def PlotUi.simple_scatter_plot (label : String) (values : List ℚ) :
    List NativeCall × Except PlotError Unit :=
  if values.isEmpty then ([], Except.error PlotError.emptyData)
  else
    let plot := SimpleScatterPlot.new label values
    (plot.plot, Except.ok ())

-- ===========================================================================
-- ImagePlot (image.rs)
-- ===========================================================================

/-- `ImageFlags`: a bitmask over the native image-flag word (generated by the
`bitflags!` macro elsewhere in the crate); embedded as its bit pattern. -/
structure ImageFlags where
  bits : Nat
  deriving DecidableEq, Repr

/-- `ImageFlags::NONE = 0`. -/
def ImageFlags.NONE : ImageFlags := ImageFlags.mk 0

/-- `ImagePlot<'a>` from `plots/image.rs`. -/
structure ImagePlot where
  label : String
  tex_id : Nat
  bounds_min : ImPlotPoint
  bounds_max : ImPlotPoint
  uv0 : ℚ × ℚ
  uv1 : ℚ × ℚ
  tint : ℚ × ℚ × ℚ × ℚ
  flags : ImageFlags
  deriving DecidableEq, Repr

/-- `ImagePlot::new(label, tex_id, bounds_min, bounds_max)`: UV0 `(0,0)`,
UV1 `(1,1)`, tint `(1,1,1,1)`, `ImageFlags::NONE`. -/
def ImagePlot.new (label : String) (tex_id : Nat)
    (bounds_min bounds_max : ImPlotPoint) : ImagePlot :=
  ImagePlot.mk label tex_id bounds_min bounds_max (0, 0) (1, 1)
    (1, 1, 1, 1) ImageFlags.NONE

/-- `ImagePlot::with_uv(uv0, uv1)`. -/
def ImagePlot.with_uv (p : ImagePlot) (uv0 uv1 : ℚ × ℚ) : ImagePlot :=
  { p with uv0 := uv0, uv1 := uv1 }

/-- `ImagePlot::with_tint(tint)`. -/
def ImagePlot.with_tint (p : ImagePlot) (tint : ℚ × ℚ × ℚ × ℚ) : ImagePlot :=
  { p with tint := tint }

/-- `ImagePlot::with_flags(flags)`. -/
def ImagePlot.with_flags (p : ImagePlot) (flags : ImageFlags) : ImagePlot :=
  { p with flags := flags }

/-- `ImagePlot::validate`: always `Ok(())`. -/
def ImagePlot.validate (_p : ImagePlot) : Except PlotError Unit :=
  Except.ok ()

/-- The `sys::ImTextureRef` record built inside `ImagePlot::plot`:
`_TexData: null`, `_TexID: self.tex_id`. -/
def mkTextureRef (tex_id : Nat) : ImTextureRef :=
  ImTextureRef.mk none tex_id

/-- `impl Plot for ImagePlot — fn plot(&self)`: validation cannot fail;
packs UVs into `ImVec2`, the tint into `ImVec4`, the texture handle into an
`ImTextureRef` with a null auxiliary pointer, and issues
`ImPlot_PlotImage(label, tex_ref, bounds_min, bounds_max, uv0, uv1, tint,
flags.bits() as i32)`. -/
def ImagePlot.plot (p : ImagePlot) : List NativeCall :=
  match p.validate with
  | Except.error _ => []
  | Except.ok _ =>
    [NativeCall.plotImage (safe_cstring p.label) (mkTextureRef p.tex_id)
      p.bounds_min p.bounds_max
      (ImVec2.mk p.uv0.1 p.uv0.2) (ImVec2.mk p.uv1.1 p.uv1.2)
      (ImVec4.mk p.tint.1 p.tint.2.1 p.tint.2.2.1 p.tint.2.2.2)
      (toI32 p.flags.bits)]

end DearImgui

-- ===========================================================================
-- Theorems
-- ===========================================================================

namespace DearImgui

/-- Helper: an element of the synthesized X sequence, read with `getD`. -/
theorem getD_map_range (f : Nat → ℚ) (n i : Nat) (hi : i < n) :
    ((List.range n).map f).getD i 0 = f i := by
  have hlen : i < ((List.range n).map f).length := by
    simpa using hi
  rw [List.getD_eq_getElem _ _ hlen]
  simp

/-- C1: `Ui::begin_disabled_with_cond(disabled)` issues exactly one native
`BeginDisabled(disabled)` call and returns a token unconditionally; releasing
the token — by drop or by the explicit `end()` — issues exactly one native
`EndDisabled`, regardless of `disabled`; so over any program path the
disabled scope adds exactly one begin and exactly one end to the trace. -/
theorem C1_begin_disabled_with_cond_balanced (disabled : Bool)
    (t : DisabledToken) (body : List NativeCall) :
    (Ui.begin_disabled_with_cond disabled).1
        = [NativeCall.beginDisabled disabled] ∧
    t.drop = [NativeCall.endDisabled] ∧
    t.end' = t.drop ∧
    countBeginDisabled (disabledScope disabled body)
        = countBeginDisabled body + 1 ∧
    countEndDisabled (disabledScope disabled body)
        = countEndDisabled body + 1 := by
  refine ⟨rfl, rfl, rfl, ?_, ?_⟩ <;>
    simp [disabledScope, Ui.begin_disabled_with_cond, DisabledToken.drop,
      countBeginDisabled, countEndDisabled, List.countP_append,
      List.countP_cons, Nat.add_comm]

/-- C2: for mismatched X/Y lengths, `ScatterPlot::validate` returns
`MismatchedLengths`, `ScatterPlot::plot` returns without issuing any native
call, and the façade `PlotUi::scatter_plot` returns `MismatchedLengths`
without issuing any native call. -/
theorem C2_scatter_mismatched_lengths (label : String) (x y : List ℚ)
    (h : x.length ≠ y.length) :
    (ScatterPlot.new label x y).validate
        = Except.error PlotError.mismatchedLengths ∧
    (ScatterPlot.new label x y).plot = [] ∧
    PlotUi.scatter_plot label x y
        = ([], Except.error PlotError.mismatchedLengths) := by
  refine ⟨?_, ?_, ?_⟩ <;>
    simp [ScatterPlot.new, ScatterPlot.validate, validate_data_lengths,
      ScatterPlot.plot, PlotUi.scatter_plot, h]

/-- Witness for C2 at the spec's scenario `X = [1,2,3]`, `Y = [1,4]`. -/
theorem C2_scatter_mismatched_lengths_witness :
    ([(1 : ℚ), 2, 3]).length ≠ ([(1 : ℚ), 4]).length ∧
    ((ScatterPlot.new "test" [1, 2, 3] [1, 4]).validate
        = Except.error PlotError.mismatchedLengths ∧
     (ScatterPlot.new "test" [1, 2, 3] [1, 4]).plot = [] ∧
     PlotUi.scatter_plot "test" [1, 2, 3] [1, 4]
        = ([], Except.error PlotError.mismatchedLengths)) :=
  ⟨by decide, C2_scatter_mismatched_lengths "test" [1, 2, 3] [1, 4] (by decide)⟩

/-- C3: for equal-length X and Y (length `n`, including `n = 0`),
`ScatterPlot::validate` succeeds and `ScatterPlot::plot` issues the native
scatter call with the label, the X and Y data, and count `x_data.len() as
i32`; for every realizable length (`n < 2^31`) that count equals
`min(|X|, |Y|) = n`. -/
theorem C3_scatter_equal_lengths (label : String) (x y : List ℚ)
    (h : x.length = y.length) :
    (ScatterPlot.new label x y).validate = Except.ok () ∧
    (ScatterPlot.new label x y).plot
        = [NativeCall.plotScatter (safe_cstring label) x y (toI32 x.length)] ∧
    (x.length < 2 ^ 31 →
      toI32 x.length = ((min x.length y.length : Nat) : Int)) := by
  refine ⟨?_, ?_, ?_⟩
  · simp [ScatterPlot.new, ScatterPlot.validate, validate_data_lengths, h]
  · simp [ScatterPlot.new, ScatterPlot.validate, validate_data_lengths,
      ScatterPlot.plot, h]
  · intro hlt
    have hm : x.length % 2 ^ 32 = x.length :=
      Nat.mod_eq_of_lt (by omega)
    simp only [toI32, hm]
    rw [if_pos hlt, h, min_self]

/-- Witness for C3 at `X = [1,2]`, `Y = [3,4]`. -/
theorem C3_scatter_equal_lengths_witness :
    ([(1 : ℚ), 2]).length = ([(3 : ℚ), 4]).length ∧
    ((ScatterPlot.new "test" [1, 2] [3, 4]).validate = Except.ok () ∧
     (ScatterPlot.new "test" [1, 2] [3, 4]).plot
        = [NativeCall.plotScatter (safe_cstring "test") [1, 2] [3, 4]
            (toI32 ([(1 : ℚ), 2]).length)] ∧
     (([(1 : ℚ), 2]).length < 2 ^ 31 →
       toI32 ([(1 : ℚ), 2]).length
         = ((min ([(1 : ℚ), 2]).length ([(3 : ℚ), 4]).length : Nat) : Int))) :=
  ⟨rfl, C3_scatter_equal_lengths "test" [1, 2] [3, 4] rfl⟩

/-- C4: for non-empty Y values, `SimpleScatterPlot::plot` issues the native
scatter call with a synthesized X sequence whose `i`-th element is
`x_start + i * x_scale` for every `i < |Y|`, with Y passed unchanged and
count `values.len() as i32`, which equals `|Y|` for every realizable
length. -/
theorem C4_simple_scatter_synthesis (label : String) (ys : List ℚ)
    (start scale : ℚ) (h : ys ≠ []) :
    (((SimpleScatterPlot.new label ys).with_x_start start).with_x_scale
        scale).plot
      = [NativeCall.plotScatter (safe_cstring label)
          ((List.range ys.length).map fun i : ℕ => start + (i : ℚ) * scale)
          ys (toI32 ys.length)] ∧
    ((List.range ys.length).map fun i : ℕ => start + (i : ℚ) * scale).length
      = ys.length ∧
    (∀ i, i < ys.length →
      ((List.range ys.length).map fun i : ℕ => start + (i : ℚ) * scale).getD i 0
        = start + (i : ℚ) * scale) ∧
    (ys.length < 2 ^ 31 → toI32 ys.length = (ys.length : Int)) := by
  have hne : ys.isEmpty = false := by
    cases ys with
    | nil => exact absurd rfl h
    | cons a as => rfl
  refine ⟨?_, by simp, ?_, ?_⟩
  · simp [SimpleScatterPlot.new, SimpleScatterPlot.with_x_start,
      SimpleScatterPlot.with_x_scale, SimpleScatterPlot.plot,
      SimpleScatterPlot.x_data, hne]
  · intro i hi
    exact getD_map_range (fun i => start + (i : ℚ) * scale) ys.length i hi
  · intro hlt
    have hm : ys.length % 2 ^ 32 = ys.length :=
      Nat.mod_eq_of_lt (by omega)
    simp only [toI32, hm]
    rw [if_pos hlt]

/-- Witness for C4 at the spec's scenario `Y = [10,20,30]`, `x_start = 5`,
`x_scale = 2`. -/
theorem C4_simple_scatter_synthesis_witness :
    ([(10 : ℚ), 20, 30]) ≠ [] ∧
    ((((SimpleScatterPlot.new "plot" [10, 20, 30]).with_x_start 5).with_x_scale
        2).plot
      = [NativeCall.plotScatter (safe_cstring "plot")
          ((List.range ([(10 : ℚ), 20, 30]).length).map
            fun i : ℕ => 5 + (i : ℚ) * 2)
          [10, 20, 30] (toI32 ([(10 : ℚ), 20, 30]).length)] ∧
     ((List.range ([(10 : ℚ), 20, 30]).length).map
        fun i : ℕ => 5 + (i : ℚ) * 2).length = ([(10 : ℚ), 20, 30]).length ∧
     (∀ i, i < ([(10 : ℚ), 20, 30]).length →
       ((List.range ([(10 : ℚ), 20, 30]).length).map
          fun i : ℕ => 5 + (i : ℚ) * 2).getD i 0 = 5 + (i : ℚ) * 2) ∧
     (([(10 : ℚ), 20, 30]).length < 2 ^ 31 →
       toI32 ([(10 : ℚ), 20, 30]).length = (([(10 : ℚ), 20, 30]).length : Int))) :=
  ⟨by decide, C4_simple_scatter_synthesis "plot" [10, 20, 30] 5 2 (by decide)⟩

/-- The spec's concrete synthesis scenario: the materialized X sequence for
`|Y| = 3`, `x_start = 5`, `x_scale = 2` is `[5, 7, 9]` and the count is 3. -/
theorem simple_scatter_concrete_x_data :
    (((SimpleScatterPlot.new "plot" [10, 20, 30]).with_x_start 5).with_x_scale
        2).x_data = [5, 7, 9] ∧
    toI32 ([(10 : ℚ), 20, 30]).length = 3 := by
  constructor
  · show ((List.range 3).map fun i : ℕ => (5 : ℚ) + (i : ℚ) * 2) = [5, 7, 9]
    norm_num [List.range_succ]
  · decide

/-- C5: with an empty Y slice, `SimpleScatterPlot::plot` returns without
issuing any native call, and the façade `PlotUi::simple_scatter_plot` returns
`EmptyData` without issuing any native call. -/
theorem C5_simple_scatter_empty (label : String) (p : SimpleScatterPlot)
    (h : p.values = []) :
    p.plot = [] ∧
    PlotUi.simple_scatter_plot label []
        = ([], Except.error PlotError.emptyData) := by
  constructor
  · simp [SimpleScatterPlot.plot, h]
  · rfl

/-- Witness for C5 at a concrete empty descriptor. -/
theorem C5_simple_scatter_empty_witness :
    (SimpleScatterPlot.new "s" []).values = [] ∧
    ((SimpleScatterPlot.new "s" []).plot = [] ∧
     PlotUi.simple_scatter_plot "t" []
        = ([], Except.error PlotError.emptyData)) :=
  ⟨rfl, C5_simple_scatter_empty "t" (SimpleScatterPlot.new "s" []) rfl⟩

/-- C6: `ButtonFlags` set algebra — the bits of a union are the bitwise OR of
the bits, `NONE` has zero bits, `contains` holds exactly when the
intersection with the argument gives back the argument; and the
left-or-right value round-trips: its native integer is the OR of the two
native constants and reconstructing from that integer gives back the same
value. -/
theorem C6_button_flags_algebra :
    (∀ a b : ButtonFlags, (a.union b).bits = a.bits ||| b.bits) ∧
    ButtonFlags.NONE.bits = 0 ∧
    (∀ a b : ButtonFlags, a.contains b = true ↔ a.inter b = b) ∧
    (ButtonFlags.MOUSE_BUTTON_LEFT.union ButtonFlags.MOUSE_BUTTON_RIGHT).bits
      = (ImGuiButtonFlags_MouseButtonLeft |||
          ImGuiButtonFlags_MouseButtonRight) ∧
    ButtonFlags.from_bits_retain
        (ButtonFlags.MOUSE_BUTTON_LEFT.union
          ButtonFlags.MOUSE_BUTTON_RIGHT).bits
      = ButtonFlags.MOUSE_BUTTON_LEFT.union ButtonFlags.MOUSE_BUTTON_RIGHT := by
  refine ⟨fun a b => rfl, rfl, ?_, by decide, rfl⟩
  intro a b
  cases a with
  | mk abits =>
    cases b with
    | mk bbits =>
      simp [ButtonFlags.contains, ButtonFlags.inter]

/-- C7: `ImagePlot::new` defaults UV0 to `(0,0)`, UV1 to `(1,1)`, the tint to
opaque white `(1,1,1,1)` and the flags to `NONE`; its `plot()` packs a
texture reference with a null auxiliary pointer and handle `T` and issues the
native image-plot call with exactly those values. -/
theorem C7_image_defaults_and_plot (label : String) (T : Nat)
    (bmin bmax : ImPlotPoint) :
    (ImagePlot.new label T bmin bmax).uv0 = (0, 0) ∧
    (ImagePlot.new label T bmin bmax).uv1 = (1, 1) ∧
    (ImagePlot.new label T bmin bmax).tint = (1, 1, 1, 1) ∧
    (ImagePlot.new label T bmin bmax).flags = ImageFlags.NONE ∧
    (mkTextureRef T).texData = none ∧
    (mkTextureRef T).texID = T ∧
    (ImagePlot.new label T bmin bmax).plot
      = [NativeCall.plotImage (safe_cstring label) (mkTextureRef T) bmin bmax
          (ImVec2.mk 0 0) (ImVec2.mk 1 1) (ImVec4.mk 1 1 1 1) 0] := by
  refine ⟨rfl, rfl, rfl, rfl, rfl, rfl, ?_⟩
  simp [ImagePlot.new, ImagePlot.plot, ImagePlot.validate, ImageFlags.NONE,
    toI32]

/-- C8 counterexample: a descriptor whose offset (1000000) lies far outside
its length-2 slices and whose stride (-3) is negative still validates with
`Ok(())` — `ScatterPlot::validate` never returns `OutOfBoundsOffset`,
refuting the claim that it checks the offset/stride combination. -/
theorem C8_out_of_bounds_offset_counterexample :
    (((ScatterPlot.new "test" [1, 2] [3, 4]).with_offset
        1000000).with_stride (-3)).offset = 1000000 ∧
    (((ScatterPlot.new "test" [1, 2] [3, 4]).with_offset
        1000000).with_stride (-3)).stride = -3 ∧
    (((ScatterPlot.new "test" [1, 2] [3, 4]).with_offset
        1000000).with_stride (-3)).x_data.length = 2 ∧
    (((ScatterPlot.new "test" [1, 2] [3, 4]).with_offset
        1000000).with_stride (-3)).validate = Except.ok () := by
  refine ⟨rfl, rfl, rfl, ?_⟩
  rfl

/-- C8 (amended): `ScatterPlot::validate` checks only that the X and Y slices
have equal length; it never inspects the offset or stride fields — composing
`with_offset`/`with_stride` leaves its result unchanged — and it never
returns `OutOfBoundsOffset`. -/
theorem C8_validate_checks_lengths_only (p : ScatterPlot) (o s : Int) :
    ((p.with_offset o).with_stride s).validate = p.validate ∧
    (p.validate = Except.ok () ↔ p.x_data.length = p.y_data.length) ∧
    p.validate ≠ Except.error PlotError.outOfBoundsOffset := by
  refine ⟨rfl, ?_, ?_⟩ <;>
    by_cases h : p.x_data.length = p.y_data.length <;>
      simp [ScatterPlot.validate, validate_data_lengths, h,
        ScatterPlot.with_offset, ScatterPlot.with_stride]

/-- C9 counterexample: `ImagePlot::with_uv` updates two distinct fields at
once — starting from the defaults `uv0 = (0,0)`, `uv1 = (1,1)`, one call
changes both `uv0` and `uv1` — refuting the claim that every `with_*` setter
changes exactly one field. -/
theorem C9_with_uv_two_fields_counterexample :
    ((ImagePlot.new "img" 7 (ImPlotPoint.mk 0 0) (ImPlotPoint.mk 1 1)).with_uv
        (1/2, 1/2) (1/4, 3/4)).uv0
      ≠ (ImagePlot.new "img" 7 (ImPlotPoint.mk 0 0) (ImPlotPoint.mk 1 1)).uv0 ∧
    ((ImagePlot.new "img" 7 (ImPlotPoint.mk 0 0) (ImPlotPoint.mk 1 1)).with_uv
        (1/2, 1/2) (1/4, 3/4)).uv1
      ≠ (ImagePlot.new "img" 7 (ImPlotPoint.mk 0 0) (ImPlotPoint.mk 1 1)).uv1 := by
  refine ⟨?_, ?_⟩ <;>
    norm_num [ImagePlot.new, ImagePlot.with_uv, Prod.ext_iff]

/-- C9 (amended): every `with_*` setter on `ScatterPlot`, `SimpleScatterPlot`
and `ImagePlot` writes exactly the fields it names — one field each, except
`ImagePlot::with_uv`, which writes the pair `uv0`, `uv1` — and leaves every
other field of the descriptor unchanged. -/
theorem C9_setters_update_named_fields :
    (∀ (p : ScatterPlot) (v : Int),
      (p.with_flags v).flags = v ∧ (p.with_flags v).label = p.label ∧
      (p.with_flags v).x_data = p.x_data ∧
      (p.with_flags v).y_data = p.y_data ∧
      (p.with_flags v).offset = p.offset ∧
      (p.with_flags v).stride = p.stride) ∧
    (∀ (p : ScatterPlot) (v : Int),
      (p.with_offset v).offset = v ∧ (p.with_offset v).label = p.label ∧
      (p.with_offset v).x_data = p.x_data ∧
      (p.with_offset v).y_data = p.y_data ∧
      (p.with_offset v).flags = p.flags ∧
      (p.with_offset v).stride = p.stride) ∧
    (∀ (p : ScatterPlot) (v : Int),
      (p.with_stride v).stride = v ∧ (p.with_stride v).label = p.label ∧
      (p.with_stride v).x_data = p.x_data ∧
      (p.with_stride v).y_data = p.y_data ∧
      (p.with_stride v).flags = p.flags ∧
      (p.with_stride v).offset = p.offset) ∧
    (∀ (p : SimpleScatterPlot) (v : ℚ),
      (p.with_x_scale v).x_scale = v ∧ (p.with_x_scale v).label = p.label ∧
      (p.with_x_scale v).values = p.values ∧
      (p.with_x_scale v).x_start = p.x_start) ∧
    (∀ (p : SimpleScatterPlot) (v : ℚ),
      (p.with_x_start v).x_start = v ∧ (p.with_x_start v).label = p.label ∧
      (p.with_x_start v).values = p.values ∧
      (p.with_x_start v).x_scale = p.x_scale) ∧
    (∀ (p : ImagePlot) (u0 u1 : ℚ × ℚ),
      (p.with_uv u0 u1).uv0 = u0 ∧ (p.with_uv u0 u1).uv1 = u1 ∧
      (p.with_uv u0 u1).label = p.label ∧
      (p.with_uv u0 u1).tex_id = p.tex_id ∧
      (p.with_uv u0 u1).bounds_min = p.bounds_min ∧
      (p.with_uv u0 u1).bounds_max = p.bounds_max ∧
      (p.with_uv u0 u1).tint = p.tint ∧
      (p.with_uv u0 u1).flags = p.flags) ∧
    (∀ (p : ImagePlot) (t : ℚ × ℚ × ℚ × ℚ),
      (p.with_tint t).tint = t ∧ (p.with_tint t).label = p.label ∧
      (p.with_tint t).tex_id = p.tex_id ∧
      (p.with_tint t).bounds_min = p.bounds_min ∧
      (p.with_tint t).bounds_max = p.bounds_max ∧
      (p.with_tint t).uv0 = p.uv0 ∧ (p.with_tint t).uv1 = p.uv1 ∧
      (p.with_tint t).flags = p.flags) ∧
    (∀ (p : ImagePlot) (f : ImageFlags),
      (p.with_flags f).flags = f ∧ (p.with_flags f).label = p.label ∧
      (p.with_flags f).tex_id = p.tex_id ∧
      (p.with_flags f).bounds_min = p.bounds_min ∧
      (p.with_flags f).bounds_max = p.bounds_max ∧
      (p.with_flags f).uv0 = p.uv0 ∧ (p.with_flags f).uv1 = p.uv1 ∧
      (p.with_flags f).tint = p.tint) :=
  ⟨fun _ _ => ⟨rfl, rfl, rfl, rfl, rfl, rfl⟩,
   fun _ _ => ⟨rfl, rfl, rfl, rfl, rfl, rfl⟩,
   fun _ _ => ⟨rfl, rfl, rfl, rfl, rfl, rfl⟩,
   fun _ _ => ⟨rfl, rfl, rfl, rfl⟩,
   fun _ _ => ⟨rfl, rfl, rfl, rfl⟩,
   fun _ _ _ => ⟨rfl, rfl, rfl, rfl, rfl, rfl, rfl, rfl⟩,
   fun _ _ => ⟨rfl, rfl, rfl, rfl, rfl, rfl, rfl, rfl⟩,
   fun _ _ => ⟨rfl, rfl, rfl, rfl, rfl, rfl, rfl, rfl⟩⟩

/-- C10: for equal-length X and Y, the native call issued by
`ScatterPlot::plot` is independent of the `offset` and `stride` fields:
plotting after `with_offset(o)` and `with_stride(s)` issues exactly the same
trace as plotting the freshly constructed descriptor. -/
theorem C10_plot_ignores_offset_stride (label : String) (x y : List ℚ)
    (o s : Int) (h : x.length = y.length) :
    (((ScatterPlot.new label x y).with_offset o).with_stride s).plot
      = (ScatterPlot.new label x y).plot := by
  rfl

/-- Witness for C10 at `X = [1,2]`, `Y = [3,4]`, `offset = 5`, `stride = 0`. -/
theorem C10_plot_ignores_offset_stride_witness :
    ([(1 : ℚ), 2]).length = ([(3 : ℚ), 4]).length ∧
    (((ScatterPlot.new "w" [1, 2] [3, 4]).with_offset 5).with_stride 0).plot
      = (ScatterPlot.new "w" [1, 2] [3, 4]).plot :=
  ⟨rfl, C10_plot_ignores_offset_stride "w" [1, 2] [3, 4] 5 0 rfl⟩

end DearImgui
